import Mathlib

/-!
Shallow embedding of `menuJoy.py` (OpenPiRobotics/Control): a joystick
teleoperation and menu/mode controller for a small robot.  Module-level
mutable variables of the script become fields of `RobotState`; each block of
the main control loop becomes a pure step function threading the state and
emitting the side-effect trace (`Ev`) of motor, display and OS calls; the
`RobotStopException` control transfer becomes a `stopped` flag; the outer
`except RobotStopException` handler becomes `shutdownEvs`.
-/

namespace MenuJoy

/-- The nine keys of the `menu` dictionary, in insertion order
(`menu = {'Manual': True, 'Line': False, ...}`, line 198). -/
inductive Mode where
  | Manual
  | Line
  | Maze
  | Toxic
  | Zombie
  | IP
  | Exit
  | Shutdown
  | Reboot
deriving DecidableEq, Repr

/-- The display string of each menu key (the Python dict key itself). -/
def modeName : Mode → String
  | .Manual => "Manual"
  | .Line => "Line"
  | .Maze => "Maze"
  | .Toxic => "Toxic"
  | .Zombie => "Zombie"
  | .IP => "IP"
  | .Exit => "Exit"
  | .Shutdown => "Shutdown"
  | .Reboot => "Reboot"

/-- `menuItems = list(menu)` (line 200): insertion order of the dict keys. -/
def menuItems : List Mode :=
  [.Manual, .Line, .Maze, .Toxic, .Zombie, .IP, .Exit, .Shutdown, .Reboot]

/-- `menuLenght = len(menuItems)` (line 201, spelling from the source). -/
def menuLenght : Int := menuItems.length

/-- Python list indexing `l[i]` for `Int` indices, with Python's negative
indexing; out-of-range indices (which raise `IndexError` in Python) default
to `Mode.Manual` and are excluded by the range invariants under which this
is used. -/
def pyGet (l : List Mode) (i : Int) : Mode :=
  if 0 ≤ i then l.getD i.toNat Mode.Manual
  else l.getD (l.length - (-i).toNat) Mode.Manual

/-- Python `int(x)`: truncation of a rational toward zero. -/
def pyInt (q : ℚ) : Int :=
  if 0 ≤ q then ⌊q⌋ else -⌊-q⌋

/-- `mixer(yaw, throttle, max_power=100)` (lines 115-133): mix joystick axes
to a pair of wheel powers.  `left = throttle + yaw`, `right = throttle - yaw`,
`scale = max_power / max(1, abs(left), abs(right))`, outputs truncated to
integers.  The script only ever calls it with the default `max_power = 100`. -/
def mixer (yaw throttle : ℚ) : Int × Int :=
  let max_power : ℚ := 100
  let left := throttle + yaw
  let right := throttle - yaw
  let scale := max_power / max 1 (max |left| |right|)
  (pyInt (left * scale), pyInt (right * scale))

/-- Side effects the control loop performs: motor commands (`set_speeds`,
`stop_motors`), display primitives (`clearDisplay`, `lineOneText`,
`lineTwoText`, `updateDisplay`) and the fire-and-forget OS actions
(`sudo halt`, `sudo reboot`). -/
inductive Ev where
  | set_speeds (l r : Int)
  | stop_motors
  | clearD
  | lineOne (t : String)
  | lineTwo (t : String)
  | updateD
  | osHalt
  | osReboot
deriving DecidableEq, Repr

/-- The module-level mutable state of `menuJoy.py` (lines 196-216), plus the
two text lines of the OLED image buffer (blank = empty string). -/
structure RobotState where
  menu : Mode → Bool
  menuIndex : Int
  lastMenuIndex : Int
  menuFlag : Bool
  mode : Int
  oldMode : Int
  currentMenu : Mode → Bool
  displayTimeOut : ℚ
  displayTimeOutFlag : Bool
  savedTime : ℚ
  newModeFlag : Bool
  lastRefresh : ℚ
  displayHomeScreenFlag : Bool
  line1 : String
  line2 : String

/-- `refreshTime = 60` (line 214): home screen refresh period in seconds. -/
def refreshTime : ℚ := 60

/-- The initial state built by the setup block (lines 196-216), with `t0`
the value of `time()` at startup: `Manual` alone active, indices 0, menu
closed, `lastRefresh = time() - refreshTime`. -/
def initState (t0 : ℚ) : RobotState where
  menu := fun m => decide (m = Mode.Manual)
  menuIndex := 0
  lastMenuIndex := 0
  menuFlag := false
  mode := 0
  oldMode := 0
  currentMenu := fun m => decide (m = Mode.Manual)
  displayTimeOut := 1
  displayTimeOutFlag := false
  savedTime := t0
  newModeFlag := false
  lastRefresh := t0 - refreshTime
  displayHomeScreenFlag := false
  line1 := ""
  line2 := ""

/-- The buttons the loop inspects in `joystick.presses`; `other` stands for
any press of a button the loop does not handle (it still makes
`joystick.has_presses` true). -/
structure Presses where
  select : Bool
  home : Bool
  dup : Bool
  ddown : Bool
  circle : Bool
  other : Bool
deriving DecidableEq, Repr

/-- `joystick.has_presses`: some button was pressed this tick. -/
def Presses.hasAny (p : Presses) : Bool :=
  p.select || p.home || p.dup || p.ddown || p.circle || p.other

/-- External inputs consumed by one iteration of the inner control loop:
axis samples, the button batch, the clock, and the strings the external
collaborators (ip query, battery script, joystick battery) would return. -/
structure TickInput where
  x_axis : ℚ
  y_axis : ℚ
  presses : Presses
  now : ℚ
  ipText : String
  mainBattery : String
  joyBattery : Option String
deriving DecidableEq, Repr

/-- `clearDisplay()`: blank both lines of the image buffer. -/
def clearDisplay (s : RobotState) : RobotState :=
  { s with line1 := "", line2 := "" }

/-- Drive arbitration (lines 243-248): the single actuation call of the
tick.  Both mixed powers zero → `stop_motors`; else `menu['Manual']` →
`set_speeds(power_left, power_right)`; else `stop_motors`. -/
def driveCmdEv (menu : Mode → Bool) (pl pr : Int) : Ev :=
  if pl = 0 ∧ pr = 0 then Ev.stop_motors
  else if menu Mode.Manual then Ev.set_speeds pl pr
  else Ev.stop_motors

/-- The `if 'home' in joystick.presses` block (lines 263-287):
`clearDisplay()`, then either exit the menu restoring `menu` from
`currentMenu` and marking the home screen due, or enter it: snapshot
`currentMenu = {**menu}`, set `menuFlag`, render the current mode (or
"No mode selected") to line 1, and set every `menu` entry `False`. -/
def homeHandler (s : RobotState) : RobotState × List Ev :=
  let s0 := clearDisplay s
  if s.menuFlag then
    ({ s0 with menuFlag := false, menu := s.currentMenu,
               displayHomeScreenFlag := true },
     [Ev.clearD])
  else
    let text :=
      if s.menu (pyGet menuItems s.mode) then
        "MODE: " ++ modeName (pyGet menuItems s.mode)
      else "No mode selected"
    ({ s0 with currentMenu := s.menu, menuFlag := true, line1 := text,
               menu := fun _ => false },
     [Ev.clearD, Ev.lineOne text])

/-- The `if 'dup' in joystick.presses and menuFlag` body (lines 296-299):
`menuIndex -= 1; if menuIndex < 0: menuIndex = menuLenght - 1`. -/
def dupHandler (s : RobotState) : RobotState :=
  let i := s.menuIndex - 1
  { s with menuIndex := if i < 0 then menuLenght - 1 else i }

/-- The `if 'ddown' in joystick.presses and menuFlag` body (lines 303-306):
`menuIndex += 1; if menuIndex == menuLenght: menuIndex = 0`. -/
def ddownHandler (s : RobotState) : RobotState :=
  let i := s.menuIndex + 1
  { s with menuIndex := if i = menuLenght then 0 else i }

/-- The `if 'circle' in joystick.presses and menuFlag` body (lines 310-323):
commit the cursor as the active mode, close the menu, arm the new-mode
flash, and arm a 2-second display deadline. -/
def circleCommit (s : RobotState) (now : ℚ) : RobotState :=
  let mode := s.menuIndex
  { s with oldMode := s.mode, mode := mode, menuFlag := false,
           newModeFlag := true,
           menu := fun key => decide (key = pyGet menuItems mode),
           savedTime := now, displayTimeOutFlag := true, displayTimeOut := 2 }

/-- The `if lastMenuIndex != menuIndex and menuFlag` block (lines 329-335):
render the cursor item to line 1 and the confirm hint to line 2. -/
def cursorRender (s : RobotState) : RobotState × List Ev :=
  if s.lastMenuIndex ≠ s.menuIndex ∧ s.menuFlag then
    let text := modeName (pyGet menuItems s.menuIndex)
    ({ s with line1 := text, line2 := "\x27O\x27 to select",
              lastMenuIndex := s.menuIndex },
     [Ev.lineOne text, Ev.lineTwo "\x27O\x27 to select"])
  else (s, [])

/-- The button-processing block under `if joystick.has_presses` (lines
261-335), after the `select` check: `home`, then `dup`, `ddown`, `circle`
(the latter three only when `menuFlag` holds at that point), then the
cursor render. -/
def buttonStep (s : RobotState) (p : Presses) (now : ℚ) : RobotState × List Ev :=
  let r1 := if p.home then homeHandler s else (s, [])
  let s2 := if p.dup && r1.1.menuFlag then dupHandler r1.1 else r1.1
  let s3 := if p.ddown && s2.menuFlag then ddownHandler s2 else s2
  let s4 := if p.circle && s3.menuFlag then circleCommit s3 now else s3
  let r5 := cursorRender s4
  (r5.1, r1.2 ++ r5.2)

/-- `homeDisplayUpdate()` (lines 178-193): render main battery and joystick
battery to the two lines.  The battery script output and the stringified
joystick battery percentage are external inputs. -/
def homeDisplayUpdate (s : RobotState) (inp : TickInput) : RobotState × List Ev :=
  let mainBattery :=
    if inp.mainBattery.length = 4 then inp.mainBattery ++ "0" else inp.mainBattery
  let text1 := "Batt: " ++ mainBattery ++ "V"
  let text2 :=
    match inp.joyBattery with
    | some b => "Joy: " ++ b ++ "%"
    | none => "Joy: Not supported"
  ({ s with line1 := text1, line2 := text2 },
   [Ev.lineOne text1, Ev.lineTwo text2])

/-- The screen blanking / home screen block (lines 340-355): expire the
display deadline, refresh the home screen when the menu is closed, no
deadline is pending and the refresh period elapsed or a refresh is due, and
`updateDisplay()` every tick. -/
def displayStep (s : RobotState) (inp : TickInput) : RobotState × List Ev :=
  let r1 :=
    if s.displayTimeOutFlag ∧ inp.now - s.savedTime > s.displayTimeOut then
      (clearDisplay { s with displayTimeOutFlag := false,
                             displayHomeScreenFlag := true },
       [Ev.clearD])
    else (s, [])
  let r2 :=
    if r1.1.menuFlag = false ∧ r1.1.displayTimeOutFlag = false then
      if inp.now - r1.1.lastRefresh > refreshTime ∨ r1.1.displayHomeScreenFlag then
        let h := homeDisplayUpdate r1.1 inp
        ({ h.1 with lastRefresh := inp.now, displayHomeScreenFlag := false },
         h.2)
      else (r1.1, [])
    else (r1.1, [])
  (r2.1, r1.2 ++ r2.2 ++ [Ev.updateD])

/-- Result of the per-mode action block and of a whole tick: next state,
emitted side effects, whether `RobotStopException` was raised, and (as an
observation of which branch ran) the text rendered by the final
`if newModeFlag` flash block, `none` when that block did not run. -/
structure TickRes where
  state : RobotState
  evs : List Ev
  stopped : Bool
  newModeRender : Option String

/-- The `if menu['IP']` block (lines 385-398): render the queried address
to line 2 (line 1 blank), deactivate `menu['IP']`, clear the flash flag,
`mode = 0`, arm a 5-second display deadline. -/
def ipStep (s : RobotState) (inp : TickInput) : RobotState × List Ev :=
  if s.menu Mode.IP then
    ({ s with line1 := "", line2 := inp.ipText,
              menu := fun key => if key = Mode.IP then false else s.menu key,
              newModeFlag := false, mode := 0,
              savedTime := inp.now, displayTimeOutFlag := true,
              displayTimeOut := 5 },
     [Ev.lineOne "", Ev.lineTwo inp.ipText])
  else (s, [])

/-- The `if menu['Shutdown']` block (lines 405-409): clear the flash flag
and invoke `sudo halt`. -/
def shutdownStep (s : RobotState) : RobotState × List Ev :=
  if s.menu Mode.Shutdown then
    ({ s with newModeFlag := false }, [Ev.osHalt])
  else (s, [])

/-- The `if menu['Reboot']` block (lines 411-415): clear the flash flag and
invoke `sudo reboot`. -/
def rebootStep (s : RobotState) : RobotState × List Ev :=
  if s.menu Mode.Reboot then
    ({ s with newModeFlag := false }, [Ev.osReboot])
  else (s, [])

/-- The `if newModeFlag` flash block (lines 417-422): clear the display,
render "New Mode: " plus the mode name to line 1, drop the flag.  The
third component records the rendered text (`none` when the block did not
run). -/
def flashStep (s : RobotState) : RobotState × List Ev × Option String :=
  if s.newModeFlag then
    let text := "New Mode: " ++ modeName (pyGet menuItems s.mode)
    ({ (clearDisplay s) with line1 := text, newModeFlag := false },
     [Ev.clearD, Ev.lineOne text], some text)
  else (s, [], none)

/-- The per-mode action block (lines 362-423).  `Manual`, `Line`, `Maze`,
`Toxic`, `Zombie` are `pass`; then the `IP` oneshot, the
`Exit` block (lines 400-403: clear the flash flag and raise
`RobotStopException`), the `Shutdown` and `Reboot` blocks, and finally the
new-mode flash. -/
def modeStep (s : RobotState) (inp : TickInput) : TickRes :=
  let r1 := ipStep s inp
  if r1.1.menu Mode.Exit then
    ⟨{ r1.1 with newModeFlag := false }, r1.2, true, none⟩
  else
    let r2 := shutdownStep r1.1
    let r3 := rebootStep r2.1
    let r4 := flashStep r3.1
    ⟨r4.1, r1.2 ++ r2.2 ++ r3.2 ++ r4.2.1, false, r4.2.2⟩

/-- One iteration of the inner `while joystick.connected` loop (lines
236-423): read axes, mix, issue the one drive command, process button
presses (raising on `select`), run the display lifecycle, then the per-mode
actions. -/
def tick (s : RobotState) (inp : TickInput) : TickRes :=
  let m := mixer inp.x_axis inp.y_axis
  let dEv := driveCmdEv s.menu m.1 m.2
  if inp.presses.hasAny && inp.presses.select then
    ⟨s, [dEv], true, none⟩
  else
    let r1 := if inp.presses.hasAny then buttonStep s inp.presses inp.now
              else (s, ([] : List Ev))
    let r2 := displayStep r1.1 inp
    let r3 := modeStep r2.1 inp
    ⟨r3.state, dEv :: (r1.2 ++ r2.2 ++ r3.evs), r3.stopped, r3.newModeRender⟩

/-- The inner loop over a finite stream of tick inputs: threads the state,
concatenates the effect traces, and cuts the stream short when a tick
raises `RobotStopException`. -/
def runLoop : RobotState → List TickInput → RobotState × List Ev × Bool
  | s, [] => (s, [], false)
  | s, i :: rest =>
    let r := tick s i
    if r.stopped then (r.state, r.evs, true)
    else
      let rec' := runLoop r.state rest
      (rec'.1, r.evs ++ rec'.2.1, rec'.2.2)

/-- The `except RobotStopException` handler (lines 435-446): stop the
motors, render the farewell message, flush, clear, flush. -/
def shutdownEvs : List Ev :=
  [Ev.stop_motors, Ev.lineOne "exited to ", Ev.lineTwo "command line",
   Ev.updateD, Ev.clearD, Ev.updateD]

/-- A whole connected session: the effect trace of the inner loop, followed
by the shutdown handler's trace when the loop ended in
`RobotStopException`. -/
def programRun (s : RobotState) (inps : List TickInput) : List Ev :=
  let r := runLoop s inps
  if r.2.2 then r.2.1 ++ shutdownEvs else r.2.1

/-- Actuation events: the motor calls, as opposed to display or OS calls. -/
def isActuation : Ev → Bool
  | Ev.set_speeds _ _ => true
  | Ev.stop_motors => true
  | _ => false

/-! ## Lemmas -/

/-- Truncation toward zero does not increase absolute value past an integer
bound. -/
lemma abs_pyInt_le {q : ℚ} {n : Int} (h : |q| ≤ (n : ℚ)) : |pyInt q| ≤ n := by
  unfold pyInt
  split
  · rename_i hq
    rw [abs_of_nonneg (Int.floor_nonneg.mpr hq)]
    have h1 : ⌊q⌋ ≤ ⌊(n : ℚ)⌋ := Int.floor_le_floor (le_trans (le_abs_self q) h)
    rwa [Int.floor_intCast] at h1
  · rename_i hq
    push_neg at hq
    have hq0 : 0 ≤ -q := le_of_lt (neg_pos.mpr hq)
    rw [abs_neg, abs_of_nonneg (Int.floor_nonneg.mpr hq0)]
    have h1 : ⌊-q⌋ ≤ ⌊(n : ℚ)⌋ := by
      apply Int.floor_le_floor
      calc -q ≤ |(-q)| := le_abs_self _
        _ = |q| := abs_neg q
        _ ≤ (n : ℚ) := h
    rwa [Int.floor_intCast] at h1

/-- The scaled wheel power is bounded by `max_power` before truncation. -/
lemma mixer_pre_bound (p l r : ℚ) (hp : |p| ≤ max |l| |r|) :
    |p * (100 / max 1 (max |l| |r|))| ≤ (100 : ℚ) := by
  set M : ℚ := max 1 (max |l| |r|) with hM
  have hM1 : (1 : ℚ) ≤ M := le_max_left _ _
  have hM0 : (0 : ℚ) < M := lt_of_lt_of_le one_pos hM1
  have hpM : |p| ≤ M := le_trans hp (le_max_right _ _)
  have hscale : |(100 : ℚ) / M| = 100 / M := by
    rw [abs_div]
    rw [abs_of_pos hM0]
    norm_num
  rw [abs_mul, hscale]
  calc |p| * (100 / M) ≤ M * (100 / M) := by
        apply mul_le_mul_of_nonneg_right hpM
        positivity
    _ = 100 := by
        field_simp

/-! ## Claim theorems -/

/-- Claim C3: for every yaw and throttle in `[-1, 1]` (indeed for all
rationals) with the default `maxPower = 100`, `mixer` returns integers
bounded by 100 in absolute value, and `mixer 0 0 = (0, 0)`. -/
theorem mixer_bounded_and_zero :
    (∀ yaw throttle : ℚ, -1 ≤ yaw → yaw ≤ 1 → -1 ≤ throttle → throttle ≤ 1 →
      |(mixer yaw throttle).1| ≤ 100 ∧ |(mixer yaw throttle).2| ≤ 100) ∧
    mixer 0 0 = (0, 0) := by
  constructor
  · intro yaw throttle _ _ _ _
    unfold mixer
    constructor
    · apply abs_pyInt_le
      have := mixer_pre_bound (throttle + yaw) (throttle + yaw) (throttle - yaw)
        (le_max_left _ _)
      push_cast
      simpa using this
    · apply abs_pyInt_le
      have := mixer_pre_bound (throttle - yaw) (throttle + yaw) (throttle - yaw)
        (le_max_right _ _)
      push_cast
      simpa using this
  · unfold mixer pyInt
    norm_num

/-- Claim C3 witness: the bound instantiated at `yaw = 1, throttle = 1`. -/
theorem mixer_bounded_witness :
    |(mixer 1 1).1| ≤ 100 ∧ |(mixer 1 1).2| ≤ 100 :=
  mixer_bounded_and_zero.1 1 1 (by norm_num) (by norm_num) (by norm_num) (by norm_num)

/-- Claim C9: from any in-range cursor index, a `dup` step followed by a
`ddown` step (and vice versa) returns the cursor to the original index, and
both steps keep the cursor inside `[0, menuLenght)`. -/
theorem cursor_cycle (s : RobotState) (h0 : 0 ≤ s.menuIndex)
    (h1 : s.menuIndex < menuLenght) :
    (ddownHandler (dupHandler s)).menuIndex = s.menuIndex ∧
    (dupHandler (ddownHandler s)).menuIndex = s.menuIndex ∧
    (0 ≤ (dupHandler s).menuIndex ∧ (dupHandler s).menuIndex < menuLenght) ∧
    (0 ≤ (ddownHandler s).menuIndex ∧ (ddownHandler s).menuIndex < menuLenght) := by
  have hL : menuLenght = 9 := rfl
  simp only [dupHandler, ddownHandler, hL] at *
  split_ifs <;> omega

/-- Claim C9 witness: cycling from the initial cursor index 0. -/
theorem cursor_cycle_witness :
    (ddownHandler (dupHandler (initState 0))).menuIndex = (initState 0).menuIndex ∧
    (dupHandler (ddownHandler (initState 0))).menuIndex = (initState 0).menuIndex ∧
    (0 ≤ (dupHandler (initState 0)).menuIndex ∧
      (dupHandler (initState 0)).menuIndex < menuLenght) ∧
    (0 ≤ (ddownHandler (initState 0)).menuIndex ∧
      (ddownHandler (initState 0)).menuIndex < menuLenght) :=
  cursor_cycle (initState 0) (by decide) (by decide)

/-- Claim C6: in the initial state `Manual` is the single active mode, and
after any circle commit with an in-range cursor the committed entry is
active and every other entry is inactive. -/
theorem single_active_after_commit (s : RobotState) (now : ℚ)
    (_h0 : 0 ≤ s.menuIndex) (_h1 : s.menuIndex < menuLenght) :
    ((initState 0).menu Mode.Manual = true ∧
      ∀ m : Mode, m ≠ Mode.Manual → (initState 0).menu m = false) ∧
    ((circleCommit s now).menu (pyGet menuItems s.menuIndex) = true ∧
      ∀ m : Mode, m ≠ pyGet menuItems s.menuIndex → (circleCommit s now).menu m = false) := by
  refine ⟨⟨by decide, ?_⟩, ⟨?_, ?_⟩⟩
  · intro m hm
    cases m <;> simp_all [initState]
  · simp [circleCommit]
  · intro m hm
    simp [circleCommit, hm]

/-- Claim C6 witness: committing cursor index 2 from the initial state. -/
theorem single_active_after_commit_witness :
    (((initState 0).menu Mode.Manual = true ∧
      ∀ m : Mode, m ≠ Mode.Manual → (initState 0).menu m = false) ∧
    ((circleCommit { initState 0 with menuIndex := 2 } 0).menu
        (pyGet menuItems ({ initState 0 with menuIndex := 2 } : RobotState).menuIndex) = true ∧
      ∀ m : Mode, m ≠ pyGet menuItems ({ initState 0 with menuIndex := 2 } : RobotState).menuIndex →
        (circleCommit { initState 0 with menuIndex := 2 } 0).menu m = false)) :=
  single_active_after_commit { initState 0 with menuIndex := 2 } 0 (by decide) (by decide)

/-- A concrete state reachable by opening the menu, moving the cursor down
twice, and closing the menu again without committing: the active mode index
is 0 but the browsing cursor index is 2. -/
def preOpenState : RobotState :=
  { initState 0 with menuIndex := 2, lastMenuIndex := 2 }

/-- Claim C5 counterexample: pressing `home` with the menu closed does open
the menu, but does not set the browsing cursor index equal to the active
mode index: from `preOpenState` (cursor 2, active index 0) the cursor stays
at 2. -/
theorem home_open_cursor_counterexample :
    preOpenState.menuFlag = false ∧ preOpenState.mode = 0 ∧
    (homeHandler preOpenState).1.menuFlag = true ∧
    (homeHandler preOpenState).1.mode = 0 ∧
    (homeHandler preOpenState).1.menuIndex = 2 ∧
    (homeHandler preOpenState).1.menuIndex ≠ (homeHandler preOpenState).1.mode := by
  refine ⟨rfl, rfl, ?_, ?_, ?_, ?_⟩ <;> decide

/-- Claim C5 as amended: pressing `home` while the menu is closed opens the
menu, snapshots the activation map into `currentMenu`, leaves the browsing
cursor index unchanged (it is not reset to the active mode index), renders
the current-mode text (or "No mode selected" when none is active) to
line 1, and deactivates all modes. -/
theorem home_open_menu (s : RobotState) (h : s.menuFlag = false) :
    (homeHandler s).1.menuFlag = true ∧
    (homeHandler s).1.currentMenu = s.menu ∧
    (homeHandler s).1.menuIndex = s.menuIndex ∧
    (homeHandler s).1.mode = s.mode ∧
    (∀ m : Mode, (homeHandler s).1.menu m = false) ∧
    (homeHandler s).1.line1 =
      (if s.menu (pyGet menuItems s.mode) then
        "MODE: " ++ modeName (pyGet menuItems s.mode)
       else "No mode selected") := by
  simp [homeHandler, clearDisplay, h]

/-- Claim C5 witness: opening the menu from `preOpenState`. -/
theorem home_open_menu_witness :
    (homeHandler preOpenState).1.menuFlag = true ∧
    (homeHandler preOpenState).1.currentMenu = preOpenState.menu ∧
    (homeHandler preOpenState).1.menuIndex = preOpenState.menuIndex ∧
    (homeHandler preOpenState).1.mode = preOpenState.mode ∧
    (∀ m : Mode, (homeHandler preOpenState).1.menu m = false) ∧
    (homeHandler preOpenState).1.line1 =
      (if preOpenState.menu (pyGet menuItems preOpenState.mode) then
        "MODE: " ++ modeName (pyGet menuItems preOpenState.mode)
       else "No mode selected") :=
  home_open_menu preOpenState rfl

/-- A browsing session: a sequence of cursor moves, `true` for a `dup`
step, `false` for a `ddown` step. -/
def browse : List Bool → RobotState → RobotState
  | [], s => s
  | b :: bs, s => browse bs (if b then dupHandler s else ddownHandler s)

/-- Cursor moves touch only the cursor index: activation map, snapshot and
menu flag are untouched by any browsing sequence. -/
lemma browse_preserves (bs : List Bool) (s : RobotState) :
    (browse bs s).currentMenu = s.currentMenu ∧
    (browse bs s).menuFlag = s.menuFlag := by
  induction bs generalizing s with
  | nil => exact ⟨rfl, rfl⟩
  | cons b bs ih =>
    have h := ih (if b then dupHandler s else ddownHandler s)
    cases b <;> simpa [browse, dupHandler, ddownHandler] using h

/-- Pressing `home` with the menu closed opens it and snapshots the
activation map. -/
lemma home_open_aux (t : RobotState) (h : t.menuFlag = false) :
    (homeHandler t).1.menuFlag = true ∧
    (homeHandler t).1.currentMenu = t.menu := by
  simp [homeHandler, clearDisplay, h]

/-- Pressing `home` with the menu open closes it, restoring the activation
map from the snapshot, clearing the display, and marking the home screen
due. -/
lemma home_close_menu (t : RobotState) (h : t.menuFlag = true) :
    (homeHandler t).1.menu = t.currentMenu ∧
    (homeHandler t).1.menuFlag = false ∧
    (homeHandler t).1.line1 = "" ∧
    (homeHandler t).1.line2 = "" ∧
    (homeHandler t).1.displayHomeScreenFlag = true := by
  simp [homeHandler, clearDisplay, h]

/-- Claim C8: opening the menu with `home`, browsing with any sequence of
`dup` and `ddown` steps, then closing it again with `home` without a commit
restores the activation map exactly; the closing press clears the display
and marks the home screen due for refresh. -/
theorem menu_roundtrip (s : RobotState) (moves : List Bool)
    (h : s.menuFlag = false) :
    (homeHandler (browse moves (homeHandler s).1)).1.menu = s.menu ∧
    (homeHandler (browse moves (homeHandler s).1)).1.menuFlag = false ∧
    (homeHandler (browse moves (homeHandler s).1)).1.line1 = "" ∧
    (homeHandler (browse moves (homeHandler s).1)).1.line2 = "" ∧
    (homeHandler (browse moves (homeHandler s).1)).1.displayHomeScreenFlag = true := by
  obtain ⟨hflag, hsnap⟩ := home_open_aux s h
  obtain ⟨hbc, hbf⟩ := browse_preserves moves (homeHandler s).1
  have hflag2 : (browse moves (homeHandler s).1).menuFlag = true := by
    rw [hbf, hflag]
  have hclose := home_close_menu (browse moves (homeHandler s).1) hflag2
  obtain ⟨hc1, hc2, hc3, hc4, hc5⟩ := hclose
  exact ⟨by rw [hc1, hbc, hsnap], hc2, hc3, hc4, hc5⟩

/-- Claim C8 witness: round trip from the initial state with one `ddown`
and one further `dup` browse step. -/
theorem menu_roundtrip_witness :
    (homeHandler (browse [false, true] (homeHandler (initState 0)).1)).1.menu =
      (initState 0).menu ∧
    (homeHandler (browse [false, true] (homeHandler (initState 0)).1)).1.menuFlag = false ∧
    (homeHandler (browse [false, true] (homeHandler (initState 0)).1)).1.line1 = "" ∧
    (homeHandler (browse [false, true] (homeHandler (initState 0)).1)).1.line2 = "" ∧
    (homeHandler (browse [false, true] (homeHandler (initState 0)).1)).1.displayHomeScreenFlag
      = true :=
  menu_roundtrip (initState 0) [false, true] rfl

/-- The browsing invariant of the menu state machine: whenever the menu is
open, no mode is armed — every entry of the activation map is false. -/
def noModeArmed (s : RobotState) : Prop :=
  s.menuFlag = true → ∀ m : Mode, s.menu m = false

/-- The home handler establishes the browsing invariant outright: opening
deactivates every mode, closing makes the invariant vacuous. -/
lemma noModeArmed_homeHandler (s : RobotState) : noModeArmed (homeHandler s).1 := by
  unfold noModeArmed homeHandler clearDisplay
  split_ifs <;> simp

/-- Cursor moves preserve the activation map and the menu flag. -/
lemma noModeArmed_dup (s : RobotState) (h : noModeArmed s) :
    noModeArmed (dupHandler s) := by
  simpa [noModeArmed, dupHandler] using h

/-- Cursor moves preserve the activation map and the menu flag. -/
lemma noModeArmed_ddown (s : RobotState) (h : noModeArmed s) :
    noModeArmed (ddownHandler s) := by
  simpa [noModeArmed, ddownHandler] using h

/-- A circle commit closes the menu, making the browsing invariant
vacuous. -/
lemma noModeArmed_circleCommit (s : RobotState) (now : ℚ) :
    noModeArmed (circleCommit s now) := by
  simp [noModeArmed, circleCommit]

/-- The cursor render touches only display lines and the last-rendered
index. -/
lemma noModeArmed_cursorRender (s : RobotState) (h : noModeArmed s) :
    noModeArmed (cursorRender s).1 := by
  unfold noModeArmed cursorRender at *
  split_ifs <;> simpa using h

/-- The whole button-processing block preserves the browsing invariant. -/
lemma noModeArmed_buttonStep (s : RobotState) (p : Presses) (now : ℚ)
    (h : noModeArmed s) : noModeArmed (buttonStep s p now).1 := by
  unfold buttonStep
  apply noModeArmed_cursorRender
  have h1 : noModeArmed (if p.home then homeHandler s else (s, [])).1 := by
    by_cases hh : p.home <;> simp [hh]
    · exact noModeArmed_homeHandler s
    · exact h
  set t1 := (if p.home then homeHandler s else (s, [])).1 with ht1
  have h2 : noModeArmed (if p.dup && t1.menuFlag then dupHandler t1 else t1) := by
    split_ifs with hc
    · exact noModeArmed_dup t1 h1
    · exact h1
  set t2 := if p.dup && t1.menuFlag then dupHandler t1 else t1 with ht2
  have h3 : noModeArmed (if p.ddown && t2.menuFlag then ddownHandler t2 else t2) := by
    split_ifs with hc
    · exact noModeArmed_ddown t2 h2
    · exact h2
  set t3 := if p.ddown && t2.menuFlag then ddownHandler t2 else t2 with ht3
  split_ifs with hc
  · exact noModeArmed_circleCommit t3 now
  · exact h3

/-- The next state of a tick whose button batch did not contain a handled
`select` press: buttons, then display lifecycle, then per-mode actions. -/
lemma tick_state_eq (s : RobotState) (inp : TickInput)
    (h : (inp.presses.hasAny && inp.presses.select) = false) :
    (tick s inp).state =
      (modeStep (displayStep
        (if inp.presses.hasAny then buttonStep s inp.presses inp.now
         else (s, [])).1 inp).1 inp).state := by
  simp [tick, h]

/-- A tick whose button batch contains `select` raises at once: the state
is unchanged and only the drive command was issued. -/
lemma tick_select_eq (s : RobotState) (inp : TickInput)
    (h : (inp.presses.hasAny && inp.presses.select) = true) :
    tick s inp =
      ⟨s, [driveCmdEv s.menu (mixer inp.x_axis inp.y_axis).1
            (mixer inp.x_axis inp.y_axis).2], true, none⟩ := by
  simp [tick, h]

/-- The display timeout block touches neither the activation map nor the
menu flag. -/
lemma displayStep_menu (s : RobotState) (inp : TickInput) :
    (displayStep s inp).1.menu = s.menu ∧
    (displayStep s inp).1.menuFlag = s.menuFlag := by
  constructor <;>
    (simp only [displayStep, homeDisplayUpdate, clearDisplay]
     split_ifs <;> rfl)

/-- The `IP` oneshot never arms a mode and keeps the menu flag. -/
lemma ipStep_menu (s : RobotState) (inp : TickInput) :
    (ipStep s inp).1.menuFlag = s.menuFlag ∧
    ∀ m : Mode, (ipStep s inp).1.menu m = true → s.menu m = true := by
  unfold ipStep
  split_ifs with h
  · refine ⟨rfl, ?_⟩
    intro m hm
    by_cases hmi : m = Mode.IP
    · simp [hmi] at hm
    · simpa [hmi] using hm
  · exact ⟨rfl, fun m hm => hm⟩

/-- The `Shutdown` block keeps the activation map and the menu flag. -/
lemma shutdownStep_menu (s : RobotState) :
    (shutdownStep s).1.menuFlag = s.menuFlag ∧ (shutdownStep s).1.menu = s.menu := by
  unfold shutdownStep
  split_ifs <;> exact ⟨rfl, rfl⟩

/-- The `Reboot` block keeps the activation map and the menu flag. -/
lemma rebootStep_menu (s : RobotState) :
    (rebootStep s).1.menuFlag = s.menuFlag ∧ (rebootStep s).1.menu = s.menu := by
  unfold rebootStep
  split_ifs <;> exact ⟨rfl, rfl⟩

/-- The new-mode flash keeps the activation map and the menu flag. -/
lemma flashStep_menu (s : RobotState) :
    (flashStep s).1.menuFlag = s.menuFlag ∧ (flashStep s).1.menu = s.menu := by
  unfold flashStep clearDisplay
  split_ifs <;> exact ⟨rfl, rfl⟩

/-- The per-mode action block never arms a mode and never changes the menu
flag: any entry active after it was active before. -/
lemma modeStep_menu (s : RobotState) (inp : TickInput) :
    (modeStep s inp).state.menuFlag = s.menuFlag ∧
    ∀ m : Mode, (modeStep s inp).state.menu m = true → s.menu m = true := by
  obtain ⟨hi1, hi2⟩ := ipStep_menu s inp
  simp only [modeStep]
  split_ifs with hex
  · exact ⟨hi1, hi2⟩
  · obtain ⟨hs1, hs2⟩ := shutdownStep_menu (ipStep s inp).1
    obtain ⟨hr1, hr2⟩ := rebootStep_menu (shutdownStep (ipStep s inp).1).1
    obtain ⟨hf1, hf2⟩ := flashStep_menu (rebootStep (shutdownStep (ipStep s inp).1).1).1
    constructor
    · simp only [hf1, hr1, hs1, hi1]
    · intro m hm
      apply hi2
      rw [← hs2, ← hr2, ← hf2]
      exact hm

/-- Claim C7: the browsing invariant — menu open implies no mode armed — is
preserved by every tick, whatever axes, buttons and times arrive. -/
theorem menu_open_no_mode_armed (s : RobotState) (inp : TickInput)
    (h : noModeArmed s) : noModeArmed (tick s inp).state := by
  by_cases hsel : (inp.presses.hasAny && inp.presses.select) = true
  · rw [tick_select_eq s inp hsel]
    exact h
  · rw [tick_state_eq s inp (by revert hsel; cases inp.presses.hasAny &&
      inp.presses.select <;> simp)]
    set t1 := (if inp.presses.hasAny then buttonStep s inp.presses inp.now
               else (s, ([] : List Ev))).1 with ht1
    have h1 : noModeArmed t1 := by
      rw [ht1]
      split_ifs with hp
      · exact noModeArmed_buttonStep s inp.presses inp.now h
      · exact h
    obtain ⟨hd1, hd2⟩ := displayStep_menu t1 inp
    have h2 : noModeArmed (displayStep t1 inp).1 := by
      unfold noModeArmed
      rw [hd1, hd2]
      exact h1
    obtain ⟨hm1, hm2⟩ := modeStep_menu (displayStep t1 inp).1 inp
    intro hf m
    rw [hm1] at hf
    by_contra hmm
    have hmt : (modeStep (displayStep t1 inp).1 inp).state.menu m = true := by
      revert hmm
      cases (modeStep (displayStep t1 inp).1 inp).state.menu m <;> simp
    exact absurd (h2 hf m) (by simp [hm2 m hmt])

/-- Claim C7 witness: the invariant holds across a tick from the state just
after opening the menu from the initial state. -/
theorem menu_open_no_mode_armed_witness :
    noModeArmed (tick (homeHandler (initState 0)).1
      { x_axis := 0, y_axis := 0,
        presses := { select := false, home := false, dup := false,
                     ddown := true, circle := false, other := false },
        now := 0, ipText := "", mainBattery := "", joyBattery := none }).state :=
  menu_open_no_mode_armed (homeHandler (initState 0)).1 _
    (noModeArmed_homeHandler (initState 0))

/-- The effect trace of a tick whose button batch did not contain a handled
`select` press. -/
lemma tick_evs_eq (s : RobotState) (inp : TickInput)
    (h : (inp.presses.hasAny && inp.presses.select) = false) :
    (tick s inp).evs =
      driveCmdEv s.menu (mixer inp.x_axis inp.y_axis).1 (mixer inp.x_axis inp.y_axis).2 ::
      ((if inp.presses.hasAny then buttonStep s inp.presses inp.now else (s, [])).2 ++
       (displayStep (if inp.presses.hasAny then buttonStep s inp.presses inp.now
                     else (s, [])).1 inp).2 ++
       (modeStep (displayStep (if inp.presses.hasAny then buttonStep s inp.presses inp.now
                               else (s, [])).1 inp).1 inp).evs) := by
  simp [tick, h]

/-- The drive command is the only actuation event: the home handler emits
none. -/
lemma filter_homeHandler (s : RobotState) :
    (homeHandler s).2.filter isActuation = [] := by
  simp only [homeHandler]
  split_ifs <;> rfl

/-- The cursor render emits no actuation event. -/
lemma filter_cursorRender (s : RobotState) :
    (cursorRender s).2.filter isActuation = [] := by
  simp only [cursorRender]
  split_ifs <;> rfl

/-- The button-processing block emits no actuation event. -/
lemma filter_buttonStep (s : RobotState) (p : Presses) (now : ℚ) :
    (buttonStep s p now).2.filter isActuation = [] := by
  simp only [buttonStep, List.filter_append]
  rw [filter_cursorRender]
  split_ifs with hh
  · rw [filter_homeHandler]
    rfl
  · rfl

/-- The display lifecycle block emits no actuation event. -/
lemma filter_displayStep (s : RobotState) (inp : TickInput) :
    (displayStep s inp).2.filter isActuation = [] := by
  simp only [displayStep, homeDisplayUpdate]
  split_ifs <;> rfl

/-- The per-mode action block emits no actuation event. -/
lemma filter_modeStep (s : RobotState) (inp : TickInput) :
    (modeStep s inp).evs.filter isActuation = [] := by
  simp only [modeStep, ipStep, shutdownStep, rebootStep, flashStep]
  split_ifs <;> rfl

/-- The drive command is an actuation event, whichever branch chose it. -/
lemma isActuation_driveCmdEv (menu : Mode → Bool) (pl pr : Int) :
    isActuation (driveCmdEv menu pl pr) = true := by
  unfold driveCmdEv
  split_ifs <;> rfl

/-- Claim C2: every tick issues exactly one actuation command, chosen by
the arbitration rule: both mixed powers zero → stop; else `Manual` active →
`set_speeds` with the mixed powers; else stop. -/
theorem tick_single_actuation (s : RobotState) (inp : TickInput) :
    (tick s inp).evs.filter isActuation =
      [if (mixer inp.x_axis inp.y_axis).1 = 0 ∧ (mixer inp.x_axis inp.y_axis).2 = 0 then
         Ev.stop_motors
       else if s.menu Mode.Manual then
         Ev.set_speeds (mixer inp.x_axis inp.y_axis).1 (mixer inp.x_axis inp.y_axis).2
       else Ev.stop_motors] := by
  have hd := isActuation_driveCmdEv s.menu (mixer inp.x_axis inp.y_axis).1
    (mixer inp.x_axis inp.y_axis).2
  by_cases hsel : (inp.presses.hasAny && inp.presses.select) = true
  · rw [tick_select_eq s inp hsel]
    simp only [List.filter, hd]
    rfl
  · rw [tick_evs_eq s inp (by revert hsel; cases inp.presses.hasAny &&
      inp.presses.select <;> simp)]
    have h1 : ((if inp.presses.hasAny then buttonStep s inp.presses inp.now
                else (s, [])).2).filter isActuation = [] := by
      split_ifs
      · exact filter_buttonStep s inp.presses inp.now
      · rfl
    rw [List.filter_cons_of_pos hd, List.filter_append, List.filter_append, h1,
        filter_displayStep, filter_modeStep]
    rfl

/-- Claim C1: a `select` press on any tick, in any state, ends the run at
that very tick: the whole remaining trace is the one drive command already
issued earlier in that tick followed by the shutdown handler, which stops
the motors, renders and flushes the farewell message, and issues no further
`set_speeds` whatever inputs were still pending. -/
theorem select_reaches_shutdown (s : RobotState) (inp : TickInput)
    (rest : List TickInput) (h : inp.presses.select = true) :
    programRun s (inp :: rest) =
      driveCmdEv s.menu (mixer inp.x_axis inp.y_axis).1
          (mixer inp.x_axis inp.y_axis).2 :: shutdownEvs ∧
    shutdownEvs = [Ev.stop_motors, Ev.lineOne "exited to ",
                   Ev.lineTwo "command line", Ev.updateD, Ev.clearD, Ev.updateD] ∧
    (∀ l r : Int, Ev.set_speeds l r ∉ shutdownEvs) := by
  have hsel : (inp.presses.hasAny && inp.presses.select) = true := by
    simp [Presses.hasAny, h]
  refine ⟨?_, rfl, ?_⟩
  · simp [programRun, runLoop, tick_select_eq s inp hsel]
  · intro l r
    simp [shutdownEvs]

/-- Claim C1 witness: a `select` press from the initial state. -/
theorem select_reaches_shutdown_witness :
    programRun (initState 0)
        [{ x_axis := 0, y_axis := 0,
           presses := { select := true, home := false, dup := false,
                        ddown := false, circle := false, other := false },
           now := 0, ipText := "", mainBattery := "", joyBattery := none }] =
      driveCmdEv (initState 0).menu (mixer 0 0).1 (mixer 0 0).2 :: shutdownEvs ∧
    shutdownEvs = [Ev.stop_motors, Ev.lineOne "exited to ",
                   Ev.lineTwo "command line", Ev.updateD, Ev.clearD, Ev.updateD] ∧
    (∀ l r : Int, Ev.set_speeds l r ∉ shutdownEvs) :=
  select_reaches_shutdown (initState 0) _ [] rfl

/-- The `stopped` flag of a tick without a handled `select` press comes
from the per-mode action block. -/
lemma tick_stopped_eq (s : RobotState) (inp : TickInput)
    (h : (inp.presses.hasAny && inp.presses.select) = false) :
    (tick s inp).stopped =
      (modeStep (displayStep
        (if inp.presses.hasAny then buttonStep s inp.presses inp.now
         else (s, [])).1 inp).1 inp).stopped := by
  simp [tick, h]

/-- The flash observation of a tick without a handled `select` press comes
from the per-mode action block. -/
lemma tick_flash_eq (s : RobotState) (inp : TickInput)
    (h : (inp.presses.hasAny && inp.presses.select) = false) :
    (tick s inp).newModeRender =
      (modeStep (displayStep
        (if inp.presses.hasAny then buttonStep s inp.presses inp.now
         else (s, [])).1 inp).1 inp).newModeRender := by
  simp [tick, h]

/-- The `IP` oneshot behaviour of the per-mode action block, for any state
in which `IP` is active and `Exit` is not. -/
lemma modeStep_ip (t : RobotState) (inp : TickInput)
    (hip : t.menu Mode.IP = true) (hex : t.menu Mode.Exit = false) :
    (modeStep t inp).stopped = false ∧
    (modeStep t inp).state.line2 = inp.ipText ∧
    (modeStep t inp).state.menu Mode.IP = false ∧
    (modeStep t inp).state.mode = 0 ∧
    (modeStep t inp).state.displayTimeOutFlag = true ∧
    (modeStep t inp).state.displayTimeOut = 5 ∧
    (modeStep t inp).state.savedTime = inp.now := by
  simp only [modeStep, ipStep, shutdownStep, rebootStep, flashStep, clearDisplay,
    hip, hex, if_true]
  split_ifs <;> simp_all

/-- Claim C4: on a tick where `IP` is armed (and no buttons arrive), the
queried address is rendered to line 2, the `IP` entry is deactivated, the
active mode index resets to 0 — the first registry entry, `Manual` — and a
5-second display deadline is armed; the loop continues. -/
theorem ip_mode_oneshot (s : RobotState) (inp : TickInput)
    (hip : s.menu Mode.IP = true) (hex : s.menu Mode.Exit = false)
    (hp : inp.presses.hasAny = false) :
    (tick s inp).stopped = false ∧
    (tick s inp).state.line2 = inp.ipText ∧
    (tick s inp).state.menu Mode.IP = false ∧
    (tick s inp).state.mode = 0 ∧
    pyGet menuItems 0 = Mode.Manual ∧
    (tick s inp).state.displayTimeOutFlag = true ∧
    (tick s inp).state.displayTimeOut = 5 ∧
    (tick s inp).state.savedTime = inp.now := by
  have hfalse : (inp.presses.hasAny && inp.presses.select) = false := by
    simp [hp]
  rw [tick_state_eq s inp hfalse, tick_stopped_eq s inp hfalse]
  simp only [hp, Bool.false_eq_true, if_false]
  obtain ⟨hdm, -⟩ := displayStep_menu s inp
  have hmi := modeStep_ip (displayStep s inp).1 inp (by rw [hdm]; exact hip)
    (by rw [hdm]; exact hex)
  exact ⟨hmi.1, hmi.2.1, hmi.2.2.1, hmi.2.2.2.1, rfl, hmi.2.2.2.2⟩

/-- A state in which the `IP` oneshot is armed: the menu activation map
holds `IP` alone, as after committing the `IP` entry. -/
def ipArmedState : RobotState :=
  { initState 0 with menu := fun m => decide (m = Mode.IP) }

/-- Claim C4 witness: the oneshot from `ipArmedState` with no presses. -/
theorem ip_mode_oneshot_witness :
    (tick ipArmedState
      { x_axis := 0, y_axis := 0,
        presses := { select := false, home := false, dup := false,
                     ddown := false, circle := false, other := false },
        now := 0, ipText := "10.0.0.7", mainBattery := "", joyBattery := none }).stopped
        = false ∧
    (tick ipArmedState
      { x_axis := 0, y_axis := 0,
        presses := { select := false, home := false, dup := false,
                     ddown := false, circle := false, other := false },
        now := 0, ipText := "10.0.0.7", mainBattery := "", joyBattery := none }).state.line2
        = "10.0.0.7" ∧
    (tick ipArmedState
      { x_axis := 0, y_axis := 0,
        presses := { select := false, home := false, dup := false,
                     ddown := false, circle := false, other := false },
        now := 0, ipText := "10.0.0.7", mainBattery := "", joyBattery := none }).state.menu
        Mode.IP = false ∧
    (tick ipArmedState
      { x_axis := 0, y_axis := 0,
        presses := { select := false, home := false, dup := false,
                     ddown := false, circle := false, other := false },
        now := 0, ipText := "10.0.0.7", mainBattery := "", joyBattery := none }).state.mode
        = 0 ∧
    pyGet menuItems 0 = Mode.Manual ∧
    (tick ipArmedState
      { x_axis := 0, y_axis := 0,
        presses := { select := false, home := false, dup := false,
                     ddown := false, circle := false, other := false },
        now := 0, ipText := "10.0.0.7", mainBattery := "",
        joyBattery := none }).state.displayTimeOutFlag = true ∧
    (tick ipArmedState
      { x_axis := 0, y_axis := 0,
        presses := { select := false, home := false, dup := false,
                     ddown := false, circle := false, other := false },
        now := 0, ipText := "10.0.0.7", mainBattery := "",
        joyBattery := none }).state.displayTimeOut = 5 ∧
    (tick ipArmedState
      { x_axis := 0, y_axis := 0,
        presses := { select := false, home := false, dup := false,
                     ddown := false, circle := false, other := false },
        now := 0, ipText := "10.0.0.7", mainBattery := "",
        joyBattery := none }).state.savedTime = 0 :=
  ip_mode_oneshot ipArmedState _ rfl rfl rfl

/-- When the menu is open and the only handled press is `circle`, the
button block reduces to the commit; no cursor render follows because the
commit closes the menu. -/
lemma buttonStep_circle (s : RobotState) (p : Presses) (now : ℚ)
    (hh : p.home = false) (hu : p.dup = false) (hd : p.ddown = false)
    (hc : p.circle = true) (hm : s.menuFlag = true) :
    buttonStep s p now = (circleCommit s now, []) := by
  simp only [buttonStep, hh, hu, hd, hc, hm, Bool.false_eq_true, if_false,
    Bool.false_and, Bool.true_and, if_true]
  simp [cursorRender, circleCommit]

/-- When the display deadline is armed but not yet expired, the display
lifecycle block performs only the per-tick flush. -/
lemma displayStep_pending (t : RobotState) (inp : TickInput)
    (h1 : t.displayTimeOutFlag = true)
    (h2 : ¬ inp.now - t.savedTime > t.displayTimeOut) :
    displayStep t inp = (t, [Ev.updateD]) := by
  simp [displayStep, h1, h2]

/-- Claim C10: committing one of the four utility entries (`IP`, `Exit`,
`Shutdown`, `Reboot`) with `circle` never reaches the new-mode flash — the
entry's own tick action clears the flash flag first (for `Exit`, the raise
also precedes the flash) — while committing any of the five persistent
modes renders "New Mode: " and the mode name on that same tick. -/
theorem commit_flash_only_persistent (s : RobotState) (inp : TickInput)
    (hm : s.menuFlag = true) (hc : inp.presses.circle = true)
    (hs : inp.presses.select = false) (hh : inp.presses.home = false)
    (hu : inp.presses.dup = false) (hd : inp.presses.ddown = false) :
    ((pyGet menuItems s.menuIndex = Mode.IP ∨ pyGet menuItems s.menuIndex = Mode.Exit ∨
      pyGet menuItems s.menuIndex = Mode.Shutdown ∨
      pyGet menuItems s.menuIndex = Mode.Reboot) →
      (tick s inp).newModeRender = none) ∧
    ((pyGet menuItems s.menuIndex = Mode.Manual ∨ pyGet menuItems s.menuIndex = Mode.Line ∨
      pyGet menuItems s.menuIndex = Mode.Maze ∨ pyGet menuItems s.menuIndex = Mode.Toxic ∨
      pyGet menuItems s.menuIndex = Mode.Zombie) →
      (tick s inp).newModeRender =
        some ("New Mode: " ++ modeName (pyGet menuItems s.menuIndex)) ∧
      Ev.lineOne ("New Mode: " ++ modeName (pyGet menuItems s.menuIndex)) ∈
        (tick s inp).evs) := by
  have hany : inp.presses.hasAny = true := by
    simp [Presses.hasAny, hc]
  have hfalse : (inp.presses.hasAny && inp.presses.select) = false := by
    simp [hs]
  have hbs : buttonStep s inp.presses inp.now = (circleCommit s inp.now, []) :=
    buttonStep_circle s inp.presses inp.now hh hu hd hc hm
  have hsc2 : ¬ inp.now - (circleCommit s inp.now).savedTime >
      (circleCommit s inp.now).displayTimeOut := by
    simp only [circleCommit]
    norm_num
  have hdp := displayStep_pending (circleCommit s inp.now) inp rfl hsc2
  rw [tick_flash_eq s inp hfalse, tick_evs_eq s inp hfalse]
  simp only [hany, if_true, hbs, hdp]
  constructor
  · rintro (hcm | hcm | hcm | hcm) <;>
      simp [modeStep, ipStep, shutdownStep, rebootStep, flashStep,
        circleCommit, hcm]
  · rintro (hcm | hcm | hcm | hcm | hcm) <;>
      simp [modeStep, ipStep, shutdownStep, rebootStep, flashStep,
        clearDisplay, circleCommit, hcm]

/-- A state browsing the menu with the cursor on the `IP` entry. -/
def browsingAtIP : RobotState :=
  { initState 0 with menuFlag := true, menu := fun _ => false, menuIndex := 5 }

/-- Claim C10 witness: committing the `IP` entry renders no new-mode
flash. -/
theorem commit_flash_only_persistent_witness :
    (tick browsingAtIP
      { x_axis := 0, y_axis := 0,
        presses := { select := false, home := false, dup := false,
                     ddown := false, circle := true, other := false },
        now := 0, ipText := "", mainBattery := "", joyBattery := none }).newModeRender
      = none := by
  have h := commit_flash_only_persistent browsingAtIP
    { x_axis := 0, y_axis := 0,
      presses := { select := false, home := false, dup := false,
                   ddown := false, circle := true, other := false },
      now := 0, ipText := "", mainBattery := "", joyBattery := none }
    rfl rfl rfl rfl rfl rfl
  exact h.1 (Or.inl (by decide))

end MenuJoy
